import Mathlib

/-!
Verification of `scripts/14_protein_structure_analysis.py`.

The script builds an in-memory table of protein isoform records from a
hardcoded dictionary, derives one status field per record, and serializes
the table as a comma-separated file
`./structure_analysis_results/protein_structures_analysis_plan.csv`.

The embedding below mirrors the script: the dictionary `isoforms` becomes an
ordered association list (Python dictionaries iterate in insertion order),
the per-protein record construction becomes `result_entry`, and the
`DataFrame.to_csv` serialization becomes `to_csv` (comma-joined fields, a
newline after every row including the last, `None` rendered as the empty
field, header written without spaces, no quoting needed since no field
contains a comma, quote or newline).  Directory creation and the file write
are modelled by a small filesystem state `FS`.
-/

set_option maxRecDepth 40000

/-- One value of the hardcoded `isoforms` dictionary: reference PDB id
(`None` possible), mutation label and affected domain. -/
structure IsoformInfo where
  ref_pdb : Option String
  mutation : String
  domain : String
deriving DecidableEq

/-- The hardcoded configuration (source lines 17-22), in insertion order. -/
def isoforms : List (String × IsoformInfo) :=
  [("CCNB1", ⟨some "4Y72", "exon_skip_3", "NES"⟩),
   ("ENO2", ⟨some "2AKZ", "exon_skip_3", "active_site"⟩),
   ("CDK5RAP3", ⟨some "8OJ5", "intron_retention", "LXXLL_motif"⟩),
   ("LUC7L", ⟨none, "exon_skip_2", "RS_domain"⟩)]

/-- Python truthiness of an optional string, as tested by
`if info["ref_pdb"]:` — `None` and the empty string are falsy. -/
def truthy (o : Option String) : Bool :=
  match o with
  | none => false
  | some s => !(s == "")

/-- One row of the result table (source lines 31-37). -/
structure ResultEntry where
  Protein : String
  PDB_ID : Option String
  Mutation_Type : String
  Domain_Affected : String
  Analysis_Status : String
deriving DecidableEq

/-- Construction of `result_entry` for one protein (source lines 31-40):
the status starts as `"Pending AlphaFold2 prediction"` and is overwritten
when `info["ref_pdb"]` is truthy. -/
def result_entry (protein : String) (info : IsoformInfo) : ResultEntry :=
  let e : ResultEntry :=
    ⟨protein, info.ref_pdb, info.mutation, info.domain,
      "Pending AlphaFold2 prediction"⟩
  if truthy info.ref_pdb then
    { e with Analysis_Status := "Ready for RMSD/TM-score analysis" }
  else e

/-- The `results` list accumulated by the loop (source lines 27-42). -/
def results : List ResultEntry :=
  isoforms.map (fun p => result_entry p.1 p.2)

/-- How `to_csv` renders an optional field: `None` becomes the empty
string. -/
def csvField (o : Option String) : String := o.getD ""

/-- One serialized data row: the five fields joined by commas. -/
def csvRow (e : ResultEntry) : String :=
  String.intercalate ","
    [e.Protein, csvField e.PDB_ID, e.Mutation_Type, e.Domain_Affected,
     e.Analysis_Status]

/-- The header row written by `to_csv` (column names joined by commas). -/
def csvHeader : String :=
  "Protein,PDB_ID,Mutation_Type,Domain_Affected,Analysis_Status"

/-- The lines of the serialized file, header first. -/
def csvLines (rs : List ResultEntry) : List String :=
  csvHeader :: rs.map csvRow

/-- The full file content produced by `results_df.to_csv(..., index=False)`:
every line is followed by a newline, the last one included. -/
def to_csv (rs : List ResultEntry) : String :=
  String.intercalate "\n" (csvLines rs) ++ "\n"

/-- Splits a character list at newline characters (observation function used
to talk about the lines of the written file). -/
def breakLines : List Char → List (List Char)
  | [] => [[]]
  | c :: cs =>
    if c = '\n' then [] :: breakLines cs
    else
      match breakLines cs with
      | [] => [[c]]
      | l :: ls => (c :: l) :: ls

/-- The lines of a string, split at newline characters. -/
def fileLines (s : String) : List String :=
  (breakLines s.data).map (fun l => String.mk l)

/-- Minimal filesystem state: existing directories and files with their
contents. -/
structure FS where
  dirs : List String
  files : List (String × String)
deriving DecidableEq

/-- `Path.mkdir(exist_ok=...)` (source line 14): creating an existing
directory errors only when `exist_ok` is false. -/
def FS.mkdir (fs : FS) (d : String) (exist_ok : Bool) : Except String FS :=
  if fs.dirs.contains d then
    if exist_ok then .ok fs else .error "FileExistsError"
  else .ok ⟨d :: fs.dirs, fs.files⟩

/-- Writing a file inside a directory: overwrites any previous file at the
same path; fails when the directory does not exist. -/
def FS.writeFile (fs : FS) (dir fname content : String) : Except String FS :=
  let path := dir ++ "/" ++ fname
  if fs.dirs.contains dir then
    .ok ⟨fs.dirs, (path, content) :: fs.files.filter (fun p => p.1 ≠ path)⟩
  else .error "FileNotFoundError"

/-- Looks up a file's content. -/
def FS.readFile (fs : FS) (path : String) : Option String :=
  (fs.files.find? (fun p => p.1 == path)).map Prod.snd

/-- The output directory (source line 13). -/
def output_dir : String := "./structure_analysis_results"

/-- The full path of the written file (source line 47). -/
def outputPath : String :=
  output_dir ++ "/" ++ "protein_structures_analysis_plan.csv"

/-- The filesystem effect of one run of the script: create the output
directory with `exist_ok=True`, then write the serialized table. -/
def scriptRun (fs : FS) : Except String FS := do
  let fs1 ← fs.mkdir output_dir true
  fs1.writeFile output_dir "protein_structures_analysis_plan.csv"
    (to_csv results)

/-- The full serialized content of the produced file, as a literal. -/
theorem to_csv_results_eq :
    to_csv results =
      "Protein,PDB_ID,Mutation_Type,Domain_Affected,Analysis_Status\n" ++
      "CCNB1,4Y72,exon_skip_3,NES,Ready for RMSD/TM-score analysis\n" ++
      "ENO2,2AKZ,exon_skip_3,active_site,Ready for RMSD/TM-score analysis\n" ++
      "CDK5RAP3,8OJ5,intron_retention,LXXLL_motif,Ready for RMSD/TM-score analysis\n" ++
      "LUC7L,,exon_skip_2,RS_domain,Pending AlphaFold2 prediction\n" := by
  decide

/-- Reading back a path that was just written at the head of the file
list yields that content. -/
theorem readFile_cons_self (ds : List String) (l : List (String × String))
    (c : String) :
    FS.readFile ⟨ds, (outputPath, c) :: l⟩ outputPath = some c := by
  unfold FS.readFile
  rw [List.find?_cons_of_pos]
  · rfl
  · simp

/-- Any successful run leaves the freshly serialized table at the output
path, whatever the initial filesystem state was. -/
theorem scriptRun_output (fs fs2 : FS) (h : scriptRun fs = .ok fs2) :
    fs2.readFile outputPath = some (to_csv results) := by
  by_cases hc : output_dir ∈ fs.dirs
  · simp [scriptRun, FS.mkdir, FS.writeFile, bind, Except.bind, hc] at h
    subst h
    exact readFile_cons_self _ _ _
  · simp [scriptRun, FS.mkdir, FS.writeFile, bind, Except.bind, hc] at h
    subst h
    exact readFile_cons_self _ _ _

/-- C1: a record's `Analysis_Status` is
`"Ready for RMSD/TM-score analysis"` iff the configured reference structure
id is truthy (neither `None` nor the empty string), and every record's
status is one of the two literal strings, so a non-truthy id yields
`"Pending AlphaFold2 prediction"`. -/
theorem analysis_status_iff_ref_present (protein : String)
    (info : IsoformInfo) :
    ((result_entry protein info).Analysis_Status =
        "Ready for RMSD/TM-score analysis" ↔
      (info.ref_pdb ≠ none ∧ info.ref_pdb ≠ some "")) ∧
    ((result_entry protein info).Analysis_Status =
        "Ready for RMSD/TM-score analysis" ∨
      (result_entry protein info).Analysis_Status =
        "Pending AlphaFold2 prediction") := by
  rcases info with ⟨o, m, d⟩
  cases o with
  | none => simp [result_entry, truthy]
  | some s =>
    by_cases hs : s = ""
    · subst hs
      simp [result_entry, truthy]
    · simp [result_entry, truthy, hs]

/-- C1 witness at a concrete input. -/
theorem analysis_status_iff_ref_present_witness :
    ((result_entry "CCNB1"
          ⟨some "4Y72", "exon_skip_3", "NES"⟩).Analysis_Status =
        "Ready for RMSD/TM-score analysis" ↔
      ((some "4Y72" : Option String) ≠ none ∧
        (some "4Y72" : Option String) ≠ some "")) ∧
    ((result_entry "CCNB1"
          ⟨some "4Y72", "exon_skip_3", "NES"⟩).Analysis_Status =
        "Ready for RMSD/TM-score analysis" ∨
      (result_entry "CCNB1"
          ⟨some "4Y72", "exon_skip_3", "NES"⟩).Analysis_Status =
        "Pending AlphaFold2 prediction") :=
  analysis_status_iff_ref_present "CCNB1" ⟨some "4Y72", "exon_skip_3", "NES"⟩

/-- C2: the table has exactly one row per configured protein — the row
keys equal the configuration keys in order, the configuration keys have no
duplicate, and the row count equals the configuration size. -/
theorem one_row_per_protein :
    results.map (fun e => e.Protein) = isoforms.map Prod.fst ∧
    (isoforms.map Prod.fst).Nodup ∧
    results.length = isoforms.length := by decide

/-- C3: the data rows of the output file (its lines minus the header line
and the empty fragment after the final newline) are the serialized records
in configuration iteration order: CCNB1, ENO2, CDK5RAP3, LUC7L. -/
theorem row_order_matches_config :
    ((fileLines (to_csv results)).drop 1).dropLast = results.map csvRow ∧
    results.map (fun e => e.Protein) =
      ["CCNB1", "ENO2", "CDK5RAP3", "LUC7L"] ∧
    isoforms.map Prod.fst = ["CCNB1", "ENO2", "CDK5RAP3", "LUC7L"] := by
  decide

/-- C4 counterexample: the first line of the produced file is not the
spec's spaced header `"Protein, PDB_ID, ..."` — `to_csv` writes the column
names with no space after the commas. -/
theorem header_not_spaced :
    (fileLines (to_csv results)).headD "" ≠
      "Protein, PDB_ID, Mutation_Type, Domain_Affected, Analysis_Status" := by
  decide

/-- C4 (amended): the run writes exactly one file, named
`protein_structures_analysis_plan.csv` inside `./structure_analysis_results`;
its first line is the header `Protein,PDB_ID,Mutation_Type,Domain_Affected,Analysis_Status`
(no space after the commas), followed by one data row per configured
protein in configuration order, and the `PDB_ID` field is empty for every
protein whose configured reference structure id is absent. -/
theorem output_file_shape :
    scriptRun ⟨[], []⟩ =
      .ok ⟨[output_dir], [(outputPath, to_csv results)]⟩ ∧
    (fileLines (to_csv results)).headD "" =
      "Protein,PDB_ID,Mutation_Type,Domain_Affected,Analysis_Status" ∧
    ((fileLines (to_csv results)).drop 1).dropLast = results.map csvRow ∧
    results.map (fun e => e.Protein) = isoforms.map Prod.fst ∧
    (isoforms.filter (fun p => !truthy p.2.ref_pdb)).all
      (fun p => csvField (result_entry p.1 p.2).PDB_ID == "") = true := by
  refine ⟨rfl, ?_, ?_, ?_, ?_⟩ <;> decide

/-- C5: the configuration maps `CCNB1` to `("4Y72", "exon_skip_3", "NES")`
and the output file contains the corresponding data row. -/
theorem ccnb1_row_present :
    ("CCNB1", (⟨some "4Y72", "exon_skip_3", "NES"⟩ : IsoformInfo)) ∈
      isoforms ∧
    "CCNB1,4Y72,exon_skip_3,NES,Ready for RMSD/TM-score analysis" ∈
      fileLines (to_csv results) := by decide

/-- C6: the configuration maps `LUC7L` to `(None, "exon_skip_2",
"RS_domain")`, the absent id serializes to an empty field, and the output
file contains the corresponding data row. -/
theorem luc7l_row_present :
    ("LUC7L", (⟨none, "exon_skip_2", "RS_domain"⟩ : IsoformInfo)) ∈
      isoforms ∧
    csvField none = "" ∧
    "LUC7L,,exon_skip_2,RS_domain,Pending AlphaFold2 prediction" ∈
      fileLines (to_csv results) := by decide

/-- C7: when the output directory already exists, directory creation is a
no-op and the run succeeds, overwriting whatever file was there with the
freshly produced table. -/
theorem rerun_overwrites (fs : FS) (hdir : output_dir ∈ fs.dirs) :
    fs.mkdir output_dir true = .ok fs ∧
    ∃ fs2, scriptRun fs = .ok fs2 ∧
      fs2.readFile outputPath = some (to_csv results) := by
  refine ⟨by simp [FS.mkdir, hdir], ?_⟩
  have hrun : scriptRun fs =
      .ok ⟨fs.dirs, (outputPath, to_csv results) ::
        fs.files.filter (fun p => p.1 ≠ outputPath)⟩ := by
    simp [scriptRun, FS.mkdir, hdir, FS.writeFile, bind, Except.bind,
      outputPath]
  exact ⟨_, hrun, scriptRun_output fs _ hrun⟩

/-- C7 witness: a directory that already holds a prior output file. -/
theorem rerun_overwrites_witness :
    FS.mkdir ⟨[output_dir], [(outputPath, "old")]⟩ output_dir true =
      .ok ⟨[output_dir], [(outputPath, "old")]⟩ ∧
    ∃ fs2, scriptRun ⟨[output_dir], [(outputPath, "old")]⟩ = .ok fs2 ∧
      fs2.readFile outputPath = some (to_csv results) :=
  rerun_overwrites ⟨[output_dir], [(outputPath, "old")]⟩ (by simp)

/-- C8: the run is deterministic — any two successful runs leave the same
bytes at the output path, namely the serialized table, which depends on
nothing but the hardcoded configuration. -/
theorem deterministic_output (fs1 fs2 fs1' fs2' : FS)
    (h1 : scriptRun fs1 = .ok fs1') (h2 : scriptRun fs2 = .ok fs2') :
    fs1'.readFile outputPath = fs2'.readFile outputPath ∧
    fs1'.readFile outputPath = some (to_csv results) := by
  rw [scriptRun_output fs1 fs1' h1, scriptRun_output fs2 fs2' h2]
  exact ⟨rfl, rfl⟩

/-- C8 witness: two runs from the empty filesystem. -/
theorem deterministic_output_witness :
    (⟨[output_dir], [(outputPath, to_csv results)]⟩ : FS).readFile
        outputPath =
      (⟨[output_dir], [(outputPath, to_csv results)]⟩ : FS).readFile
        outputPath ∧
    (⟨[output_dir], [(outputPath, to_csv results)]⟩ : FS).readFile
        outputPath = some (to_csv results) :=
  deterministic_output ⟨[], []⟩ ⟨[], []⟩
    ⟨[output_dir], [(outputPath, to_csv results)]⟩
    ⟨[output_dir], [(outputPath, to_csv results)]⟩ rfl rfl

/-- C9: the configuration has exactly four proteins in insertion order
CCNB1, ENO2, CDK5RAP3, LUC7L, exactly one of which (LUC7L) has an absent
reference structure id; hence three rows are ready for analysis and one is
pending prediction. -/
theorem config_and_status_counts :
    isoforms.map Prod.fst = ["CCNB1", "ENO2", "CDK5RAP3", "LUC7L"] ∧
    isoforms.length = 4 ∧
    (isoforms.filter (fun p => p.2.ref_pdb == none)).map Prod.fst =
      ["LUC7L"] ∧
    (results.filter (fun e =>
      e.Analysis_Status == "Ready for RMSD/TM-score analysis")).length =
        3 ∧
    (results.filter (fun e =>
      e.Analysis_Status == "Pending AlphaFold2 prediction")).length = 1 := by
  decide

/-- C10: deriving the status touches only `Analysis_Status` — the other
four fields of every record are the configuration key and values verbatim,
in both branches of the status derivation. -/
theorem status_derivation_frame (protein : String) (info : IsoformInfo) :
    (result_entry protein info).Protein = protein ∧
    (result_entry protein info).PDB_ID = info.ref_pdb ∧
    (result_entry protein info).Mutation_Type = info.mutation ∧
    (result_entry protein info).Domain_Affected = info.domain := by
  rcases info with ⟨o, m, d⟩
  cases h : truthy o <;> simp [result_entry, h]
